import Mathlib

/-!
Verification development for the color-scheme derivation engine of the
color-analysis-app repository (src/utils/openColor.ts and
src/utils/colorSchemeGenerator.ts).

Numbers: JavaScript numbers are modelled as exact rationals (`ℚ`) where the
source only performs field arithmetic and comparisons, and as reals (`ℝ`)
where trigonometric functions are involved (circular hue statistics and hue
interpolation).  The colord library (an external collaborator per the spec)
is modelled by exact implementations of the standard hex/RGB/HSL conversions,
including colord's rounding of `toHsl` components to integers and the
black fallback for unparseable input.
-/

/-- An RGB triple as colord stores it (each channel 0–255). -/
structure Rgb where
  r : ℕ
  g : ℕ
  b : ℕ
deriving DecidableEq

/-- HSL components as returned by colord's `toHsl` (rounded to integers,
hue in [0,360), saturation and lightness in [0,100]). -/
structure Hsl where
  h : ℚ
  s : ℚ
  l : ℚ
deriving DecidableEq

/-- Value of a hexadecimal digit character, if any. -/
def hexDigitVal (c : Char) : Option ℕ :=
  if ('0' ≤ c ∧ c ≤ '9') then some (c.toNat - 48)
  else if ('a' ≤ c ∧ c ≤ 'f') then some (c.toNat - 87)
  else if ('A' ≤ c ∧ c ≤ 'F') then some (c.toNat - 55)
  else none

/-- Model of colord's hex parsing: `#rgb` and `#rrggbb` forms; any other
input falls back to black, as colord does for invalid input. -/
def hexToRgb (s : String) : Rgb :=
  match s.toList with
  | ['#', a, b, c, d, e, f] =>
    match hexDigitVal a, hexDigitVal b, hexDigitVal c,
          hexDigitVal d, hexDigitVal e, hexDigitVal f with
    | some a1, some b1, some c1, some d1, some e1, some f1 =>
      ⟨16 * a1 + b1, 16 * c1 + d1, 16 * e1 + f1⟩
    | _, _, _, _, _, _ => ⟨0, 0, 0⟩
  | ['#', a, b, c] =>
    match hexDigitVal a, hexDigitVal b, hexDigitVal c with
    | some a1, some b1, some c1 => ⟨17 * a1, 17 * b1, 17 * c1⟩
    | _, _, _ => ⟨0, 0, 0⟩
  | _ => ⟨0, 0, 0⟩

/-- Lowercase hex digit for a value below 16. -/
def hexDigitChar (n : ℕ) : Char :=
  if n < 10 then Char.ofNat (48 + n) else Char.ofNat (87 + n)

/-- Two lowercase hex digits of a byte. -/
def byteToHex (n : ℕ) : String :=
  String.mk [hexDigitChar (n / 16 % 16), hexDigitChar (n % 16)]

/-- Model of colord's `toHex` output format (lowercase `#rrggbb`). -/
def rgbToHexString (c : Rgb) : String :=
  "#" ++ byteToHex c.r ++ byteToHex c.g ++ byteToHex c.b

/-- `Math.round` on an exact rational: `⌊q + 1/2⌋`. -/
def qround (q : ℚ) : ℤ :=
  ⌊q + 1/2⌋

/-- Exact RGB → HSL conversion followed by colord's rounding of each
component to the nearest integer (`Math.round`, i.e. `⌊x + 1/2⌋`). -/
def rgbToHsl (c : Rgb) : Hsl :=
  let r : ℚ := c.r
  let g : ℚ := c.g
  let b : ℚ := c.b
  let mx := max r (max g b)
  let mn := min r (min g b)
  let delta := mx - mn
  let l0 : ℚ := (mx + mn) / 2 / 255 * 100
  let s0 : ℚ := if delta = 0 then 0 else delta / (255 - |mx + mn - 255|) * 100
  let hraw : ℚ :=
    if delta = 0 then 0
    else if mx = r then 60 * ((g - b) / delta)
    else if mx = g then 60 * ((b - r) / delta + 2)
    else 60 * ((r - g) / delta + 4)
  let h0 : ℚ := if hraw < 0 then hraw + 360 else hraw
  ⟨(qround h0 : ℤ), (qround s0 : ℤ), (qround l0 : ℤ)⟩

/-- `colord(hex).toHsl()`. -/
def toHsl (hex : String) : Hsl :=
  rgbToHsl (hexToRgb hex)

/-- Truncation toward zero, as the JavaScript `%` operator uses. -/
noncomputable def jsTrunc (x : ℝ) : ℝ :=
  if x < 0 then (⌈x⌉ : ℝ) else (⌊x⌋ : ℝ)

/-- The JavaScript remainder operator `a % b` (sign of the dividend). -/
noncomputable def jsMod (a b : ℝ) : ℝ :=
  a - b * jsTrunc (a / b)

/-- The source idiom `((hue % 360) + 360) % 360`, bringing a hue into
[0,360). -/
noncomputable def normalizeHue360 (x : ℝ) : ℝ :=
  jsMod (jsMod x 360 + 360) 360

/-- Model of `Math.atan2 y x` via the complex argument (range (-π, π],
`atan2 0 0 = 0`, matching JavaScript). -/
noncomputable def atan2 (y x : ℝ) : ℝ :=
  Complex.arg ⟨x, y⟩

/-- Model of colord's HSL → RGB conversion (standard formulas, channels
rounded to the nearest integer).  The hue is brought into [0,360) first. -/
noncomputable def hslToRgb (h : ℝ) (s l : ℚ) : Rgb :=
  let hn := normalizeHue360 h
  let s1 : ℝ := ((min 100 (max 0 s) : ℚ) : ℝ) / 100
  let l1 : ℝ := ((min 100 (max 0 l) : ℚ) : ℝ) / 100
  let c := (1 - |2 * l1 - 1|) * s1
  let m2 := hn / 60 - 2 * (⌊hn / 120⌋ : ℝ)
  let x := c * (1 - |m2 - 1|)
  let m := l1 - c / 2
  let rgb1 : ℝ × ℝ × ℝ :=
    if hn < 60 then (c, x, 0)
    else if hn < 120 then (x, c, 0)
    else if hn < 180 then (0, c, x)
    else if hn < 240 then (0, x, c)
    else if hn < 300 then (x, 0, c)
    else (c, 0, x)
  ⟨(round ((rgb1.1 + m) * 255) : ℤ).toNat,
   (round ((rgb1.2.1 + m) * 255) : ℤ).toNat,
   (round ((rgb1.2.2 + m) * 255) : ℤ).toNat⟩

/-- `colord({h, s, l}).toHex()`. -/
noncomputable def hslToHex (h : ℝ) (s l : ℚ) : String :=
  rgbToHexString (hslToRgb h s l)

/-- The 13 Open Color hue families (12 chromatic + the neutral gray). -/
inductive OpenColorHue where
  | gray | red | pink | grape | violet | indigo | blue
  | cyan | teal | green | lime | yellow | orange
deriving DecidableEq

/-- Display name, reference hue angle, and reference color of a family. -/
structure HueInfo where
  name : String
  hue : ℚ
  color : String
deriving DecidableEq

/-- The `OPEN_COLOR_HUES` table of src/utils/openColor.ts. -/
def OPEN_COLOR_HUES : OpenColorHue → HueInfo
  | .gray => ⟨"Gray", 210, "#868e96"⟩
  | .red => ⟨"Red", 0, "#ff6b6b"⟩
  | .pink => ⟨"Pink", 328, "#f06595"⟩
  | .grape => ⟨"Grape", 294, "#cc5de8"⟩
  | .violet => ⟨"Violet", 260, "#845ef7"⟩
  | .indigo => ⟨"Indigo", 242, "#5c7cfa"⟩
  | .blue => ⟨"Blue", 200, "#339af0"⟩
  | .cyan => ⟨"Cyan", 187, "#22b8cf"⟩
  | .teal => ⟨"Teal", 162, "#20c997"⟩
  | .green => ⟨"Green", 120, "#51cf66"⟩
  | .lime => ⟨"Lime", 83, "#94d82d"⟩
  | .yellow => ⟨"Yellow", 44, "#fcc419"⟩
  | .orange => ⟨"Orange", 25, "#ff922b"⟩

/-- Key order of the `OPEN_COLOR_HUES` object literal: the order
`Object.keys` / `Object.entries` iterate in. -/
def hueOrder : List OpenColorHue :=
  [.gray, .red, .pink, .grape, .violet, .indigo, .blue,
   .cyan, .teal, .green, .lime, .yellow, .orange]

/-- The string key of a family, as it appears in the source object. -/
def hueKey : OpenColorHue → String
  | .gray => "gray"
  | .red => "red"
  | .pink => "pink"
  | .grape => "grape"
  | .violet => "violet"
  | .indigo => "indigo"
  | .blue => "blue"
  | .cyan => "cyan"
  | .teal => "teal"
  | .green => "green"
  | .lime => "lime"
  | .yellow => "yellow"
  | .orange => "orange"

/-- The static `OPEN_COLOR_PALETTE` table (10 shades per family,
lightest first). -/
def OPEN_COLOR_PALETTE : OpenColorHue → List String
  | .gray =>
    ["#f8f9fa", "#f1f3f4", "#e9ecef", "#dee2e6", "#ced4da",
     "#adb5bd", "#868e96", "#495057", "#343a40", "#212529"]
  | .red =>
    ["#fff5f5", "#ffe3e3", "#ffc9c9", "#ffa8a8", "#ff8787",
     "#ff6b6b", "#fa5252", "#f03e3e", "#e03131", "#c92a2a"]
  | .pink =>
    ["#fff0f6", "#ffdeeb", "#fcc2d7", "#faa2c1", "#f783ac",
     "#f06595", "#e64980", "#d6336c", "#c2255c", "#a61e4d"]
  | .grape =>
    ["#f8f0fc", "#f3d9fa", "#eebefa", "#e599f7", "#da77f2",
     "#cc5de8", "#be4bdb", "#ae3ec9", "#9c36b5", "#862e9c"]
  | .violet =>
    ["#f3f0ff", "#e5dbff", "#d0bfff", "#b197fc", "#9775fa",
     "#845ef7", "#7950f2", "#7048e8", "#6741d9", "#5f3dc4"]
  | .indigo =>
    ["#edf2ff", "#dbe4ff", "#bac8ff", "#91a7ff", "#748ffc",
     "#5c7cfa", "#4c6ef5", "#4263eb", "#3b5bdb", "#364fc7"]
  | .blue =>
    ["#e7f5ff", "#d0ebff", "#a5d8ff", "#74c0fc", "#4dabf7",
     "#339af0", "#228be6", "#1c7ed6", "#1971c2", "#1864ab"]
  | .cyan =>
    ["#e3fafc", "#c5f6fa", "#99e9f2", "#66d9ef", "#3bc9db",
     "#22b8cf", "#15aabf", "#1098ad", "#0c8599", "#0b7285"]
  | .teal =>
    ["#e6fcf5", "#c3fae8", "#96f2d7", "#63e6be", "#38d9a9",
     "#20c997", "#12b886", "#0ca678", "#099268", "#087f5b"]
  | .green =>
    ["#ebfbee", "#d3f9d8", "#b2f2bb", "#8ce99a", "#69db7c",
     "#51cf66", "#40c057", "#37b24d", "#2f9e44", "#2b8a3e"]
  | .lime =>
    ["#f4fce3", "#e9fac8", "#d8f5a2", "#c0eb75", "#a9e34b",
     "#94d82d", "#82c91e", "#74b816", "#66a80f", "#5c940d"]
  | .yellow =>
    ["#fff9db", "#fff3bf", "#ffec99", "#ffe066", "#ffd43b",
     "#fcc419", "#fab005", "#f59f00", "#f08c00", "#e67700"]
  | .orange =>
    ["#fff4e6", "#ffe8cc", "#ffd8a8", "#ffc078", "#ffa94d",
     "#ff922b", "#fd7e14", "#f76707", "#e8590c", "#d9480f"]

/-- Circular distance between two hue angles. -/
def calculateHueDistance (hue1 hue2 : ℚ) : ℚ :=
  min |hue1 - hue2| (360 - |hue1 - hue2|)

/-- The hue classifier `findClosestOpenColorHue`: low-saturation colors go
to gray, chromatic colors to the family with minimum circular hue
distance, first-encountered minimum winning (table order). -/
def findClosestOpenColorHue (hexColor : String) : OpenColorHue :=
  let hsl := toHsl hexColor
  if hsl.s < 15 then OpenColorHue.gray
  else
    (hueOrder.foldl
      (fun acc key =>
        if key = OpenColorHue.gray then acc
        else
          let distance := calculateHueDistance hsl.h (OPEN_COLOR_HUES key).hue
          if distance < acc.2 then (key, distance) else acc)
      (OpenColorHue.red, (180 : ℚ))).1

/-- `findClosestOpenColorShade`: map lightness to a shade index, clamped
to [0,9]. -/
def findClosestOpenColorShade (lightness : ℚ) : ℕ :=
  (min 9 (max 0 (qround ((1 - lightness / 100) * 9)))).toNat

/-- Euclidean RGB distance between two hex colors (identical helper in
both source files). -/
noncomputable def calculateColorDistance (color1 color2 : String) : ℝ :=
  let rgb1 := hexToRgb color1
  let rgb2 := hexToRgb color2
  let rDiff : ℝ := (rgb1.r : ℝ) - (rgb2.r : ℝ)
  let gDiff : ℝ := (rgb1.g : ℝ) - (rgb2.g : ℝ)
  let bDiff : ℝ := (rgb1.b : ℝ) - (rgb2.b : ℝ)
  Real.sqrt (rDiff * rDiff + gDiff * gDiff + bDiff * bDiff)

/-- Result of `findClosestOpenColor`. -/
structure OpenColorReference where
  hue : OpenColorHue
  shade : ℕ
  distance : ℝ

/-- An empty hex string, the (unreachable) out-of-bounds default for
indexing a shade list. -/
def blankHex : String :=
  ""

/-- `findClosestOpenColor`: nearest static reference entry for a color. -/
noncomputable def findClosestOpenColor (hexColor : String) : OpenColorReference :=
  let hsl := toHsl hexColor
  let closestHue := findClosestOpenColorHue hexColor
  let closestShade := findClosestOpenColorShade hsl.l
  let referenceColor := (OPEN_COLOR_PALETTE closestHue).getD closestShade blankHex
  ⟨closestHue, closestShade, calculateColorDistance hexColor referenceColor⟩

/-- `groupColorsByOpenColorHue`: every family starts with an empty list,
then each color is pushed onto its classified family's list. -/
def groupColorsByOpenColorHue (colors : List String) : OpenColorHue → List String :=
  colors.foldl
    (fun grouped color =>
      Function.update grouped (findClosestOpenColorHue color)
        (grouped (findClosestOpenColorHue color) ++ [color]))
    (fun _ => [])

/-- Spectral display order of the families (src/utils/colorSchemeGenerator.ts). -/
def SPECTRAL_ORDER : List OpenColorHue :=
  [.red, .pink, .grape, .violet, .indigo, .blue, .cyan,
   .teal, .green, .lime, .yellow, .orange, .gray]

/-- `getSpectralIndex`: position in the spectral order, unknown hues last. -/
def getSpectralIndex (hue : OpenColorHue) : ℕ :=
  let index := SPECTRAL_ORDER.indexOf hue
  if index = SPECTRAL_ORDER.length then 999 else index

/-- `calculateCircularMean`: average hue angles via unit vectors and the
arctangent, normalized to a nonnegative angle; 0 for the empty list. -/
noncomputable def calculateCircularMean (hues : List ℝ) : ℝ :=
  if hues = [] then 0
  else
    let n : ℝ := hues.length
    let avgX := (hues.map (fun hue => Real.cos (hue * Real.pi / 180))).sum / n
    let avgY := (hues.map (fun hue => Real.sin (hue * Real.pi / 180))).sum / n
    let avgHue := atan2 avgY avgX * 180 / Real.pi
    if avgHue < 0 then avgHue + 360 else avgHue

/-- `interpolateHue`: normalize both hues, take the signed shortest angular
difference (wrapping at ±180°), step `factor` along it, renormalize. -/
noncomputable def interpolateHue (hue1 hue2 factor : ℝ) : ℝ :=
  let h1 := normalizeHue360 hue1
  let h2 := normalizeHue360 hue2
  let diff0 := h2 - h1
  let diff :=
    if diff0 > 180 then diff0 - 360
    else if diff0 < -180 then diff0 + 360
    else diff0
  normalizeHue360 (h1 + diff * factor)

/-- The `TripleHueConfig` record (optional thresholds model the optional
TypeScript fields; `?? 66` / `?? 33` defaults are applied at use sites). -/
structure TripleHueConfig where
  enabled : Bool
  highlightThreshold : Option ℚ
  shadowThreshold : Option ℚ

/-- `separateIntoThreeGroups`: partition colors by lightness into
highlights, midtones and shadows (in that order, preserving input order). -/
def separateIntoThreeGroups (colors : List String)
    (highlightThreshold shadowThreshold : ℚ) :
    List String × List String × List String :=
  colors.foldl
    (fun acc color =>
      let hsl := toHsl color
      if hsl.l ≥ highlightThreshold then (acc.1 ++ [color], acc.2.1, acc.2.2)
      else if hsl.l ≥ shadowThreshold then (acc.1, acc.2.1 ++ [color], acc.2.2)
      else (acc.1, acc.2.1, acc.2.2 ++ [color]))
    ([], [], [])

/-- The record returned by `calculateAverageHSL`. -/
structure AvgHsl where
  avgHue : ℝ
  avgChroma : ℚ
  avgLightness : ℚ
  highlightHue : Option ℝ
  midtoneHue : Option ℝ
  shadowHue : Option ℝ
  highlightColors : Option (List String)
  midtoneColors : Option (List String)
  shadowColors : Option (List String)

/-- First defined hue among highlight, midtone, shadow — the source's
`availableHues[0]` (`availableHues` is nonempty at the call site; the final
arm is unreachable there). -/
noncomputable def firstAvailableHue (hH mH sH : Option ℝ) : ℝ :=
  match hH, mH, sH with
  | some x, _, _ => x
  | none, some x, _ => x
  | none, none, some x => x
  | none, none, none => 0

/-- `calculateAverageHSL`: per-group statistics.  Gray averages lightness
over all members with fixed hue/chroma; chromatic groups average over
members with saturation ≥ 15, falling back to the family's static
reference when none remain; in triple-hue mode the chromatic members are
split into zones, per-zone circular means are computed, missing zones are
back-filled, and the midtone hue is blended toward the midpoint of the
extremes. -/
noncomputable def calculateAverageHSL (colors : List String)
    (hueCategory : OpenColorHue) (tripleHueConfig : Option TripleHueConfig) :
    AvgHsl :=
  if colors = [] then
    ⟨0, 0, 0, none, none, none, none, none, none⟩
  else if hueCategory = OpenColorHue.gray then
    let hslValues := colors.map toHsl
    ⟨210, 5, (hslValues.map (fun hsl => hsl.l)).sum / colors.length,
     none, none, none, none, none, none⟩
  else
    let chromaticColors := colors.filter (fun color => 15 ≤ (toHsl color).s)
    if chromaticColors = [] then
      ⟨((OPEN_COLOR_HUES hueCategory).hue : ℝ), 50, 50,
       none, none, none, none, none, none⟩
    else
      let hslValues := chromaticColors.map toHsl
      let avgHue := calculateCircularMean (hslValues.map (fun hsl => (hsl.h : ℝ)))
      let avgChroma := (hslValues.map (fun hsl => hsl.s)).sum / chromaticColors.length
      let avgLightness := (hslValues.map (fun hsl => hsl.l)).sum / chromaticColors.length
      match tripleHueConfig with
      | none =>
        ⟨avgHue, avgChroma, avgLightness, none, none, none, none, none, none⟩
      | some cfg =>
        if cfg.enabled = false then
          ⟨avgHue, avgChroma, avgLightness, none, none, none, none, none, none⟩
        else
          let parts := separateIntoThreeGroups chromaticColors
            (cfg.highlightThreshold.getD 66) (cfg.shadowThreshold.getD 33)
          let highlights := parts.1
          let midtones := parts.2.1
          let shadows := parts.2.2
          let highlightHue0 : Option ℝ :=
            if highlights = [] then none
            else some (calculateCircularMean ((highlights.map toHsl).map (fun hsl => (hsl.h : ℝ))))
          let midtoneHue0 : Option ℝ :=
            if midtones = [] then none
            else some (calculateCircularMean ((midtones.map toHsl).map (fun hsl => (hsl.h : ℝ))))
          let shadowHue0 : Option ℝ :=
            if shadows = [] then none
            else some (calculateCircularMean ((shadows.map toHsl).map (fun hsl => (hsl.h : ℝ))))
          let filled : Option ℝ × Option ℝ × Option ℝ :=
            if highlightHue0 = none ∧ midtoneHue0 = none ∧ shadowHue0 = none then
              (some avgHue, some avgHue, some avgHue)
            else
              let fallbackHue := firstAvailableHue highlightHue0 midtoneHue0 shadowHue0
              (some (highlightHue0.getD fallbackHue),
               some (midtoneHue0.getD fallbackHue),
               some (shadowHue0.getD fallbackHue))
          let highlightHue := filled.1
          let shadowHue := filled.2.2
          let midtoneHue : Option ℝ :=
            match filled.1, filled.2.1, filled.2.2 with
            | some hH, some mH, some sH =>
              some (interpolateHue mH (interpolateHue sH hH (1/2)) (1/2))
            | _, mH0, _ => mH0
          ⟨avgHue, avgChroma, avgLightness, highlightHue, midtoneHue, shadowHue,
           some highlights, some midtones, some shadows⟩

/-- The triple-hue gate of `generateOpenColorShades` (lines 450–455): mode
requested, all three zone hues defined, and one of the two adjacent pairs
(highlight–midtone or midtone–shadow) more than 5 apart in absolute value. -/
noncomputable def useTripleHue (tripleHueMode : Bool) (hH mH sH : Option ℝ) : Bool :=
  tripleHueMode && hH.isSome && mH.isSome && sH.isSome &&
    (decide (5 < |hH.getD 0 - mH.getD 0|) || decide (5 < |mH.getD 0 - sH.getD 0|))

/-- The `getChromaForLightness` closure: chroma modulation by lightness
band, with the base chroma clamped to [0,100]. -/
def getChromaForLightness (baseChroma : ℚ) (lightness : ℚ) : ℚ :=
  let numericChroma := min 100 (max 0 baseChroma)
  if lightness > 85 then numericChroma * (7/10)
  else if lightness > 75 then numericChroma * (85/100)
  else if lightness > 35 then numericChroma
  else if lightness > 20 then numericChroma * (85/100)
  else numericChroma * (7/10)

/-- The three-zone hue choice for one lightness step (the `useTripleHue`
branch of the shade loop). -/
noncomputable def tripleHueAt (hH mH sH : ℝ) (lightness : ℚ) : ℝ :=
  if 75 ≤ lightness then
    let factor : ℝ := max 0 (min 1 (((lightness : ℝ) - 75) / (96 - 75)))
    interpolateHue mH hH factor
  else if 40 ≤ lightness then
    let factor : ℚ := (lightness - 40) / (75 - 40)
    if factor < 1/2 then interpolateHue sH mH ((factor : ℝ) * 2)
    else interpolateHue mH hH (((factor : ℝ) - 1/2) * 2)
  else
    let factor : ℝ := max 0 (min 1 (((lightness : ℝ) - 16) / (40 - 16)))
    interpolateHue sH mH factor

/-- The fixed Open Color lightness curve, lightest first. -/
def lightnessSteps : List ℚ :=
  [96, 90, 82, 70, 56, 45, 37, 29, 22, 16]

/-- `generateOpenColorShades`: gray gets fixed near-neutral shades; a
chromatic family uses three-zone interpolation when the `useTripleHue`
gate passes, otherwise the single base hue normalized to [0,360); chroma
is modulated per lightness band. -/
noncomputable def generateOpenColorShades (baseHue : ℝ) (baseChroma : ℚ)
    (hueCategory : OpenColorHue) (tripleHueMode : Bool) (hH mH sH : Option ℝ) :
    List String :=
  if hueCategory = OpenColorHue.gray then
    lightnessSteps.map (fun lightness => hslToHex 210 8 lightness)
  else
    let useTriple := useTripleHue tripleHueMode hH mH sH
    lightnessSteps.map (fun lightness =>
      let hueToUse :=
        if useTriple = true then tripleHueAt (hH.getD 0) (mH.getD 0) (sH.getD 0) lightness
        else normalizeHue360 baseHue
      let adjustedChroma := getChromaForLightness baseChroma lightness
      hslToHex hueToUse (min 100 (max 0 adjustedChroma)) (min 100 (max 0 lightness)))

/-- Whether the shade loop of `generateOpenColorShades` takes the
three-zone interpolation path for these arguments (gray returns before
the gate is consulted). -/
noncomputable def tripleHueApplied (hueCategory : OpenColorHue)
    (tripleHueMode : Bool) (hH mH sH : Option ℝ) : Bool :=
  if hueCategory = OpenColorHue.gray then false
  else useTripleHue tripleHueMode hH mH sH

/-- One usage site of a color (src/types/color.ts `ColorOccurrence`). -/
structure ColorOccurrence where
  file : String
  line : ℕ
  context : String
  kind : String
deriving DecidableEq

/-- An externally supplied color sample (src/types/color.ts `ColorData`);
the fields the engine never reads algorithmically are carried along. -/
structure ColorData where
  hexValue : String
  hue : ℚ
  primaryCategory : String
  usagePattern : String
  occurrences : List ColorOccurrence
deriving DecidableEq

/-- `ColorDataMap`: a string-keyed record of samples, modelled as an
association list in key insertion order (`Object.values` takes the values
in that order). -/
def ColorDataMap : Type :=
  List (String × ColorData)

/-- ts-belt `D.set`: replace the value in place if the key exists,
otherwise append the new binding. -/
def recordSet (m : List (String × OpenColorReference)) (k : String)
    (v : OpenColorReference) : List (String × OpenColorReference) :=
  if m.any (fun kv => kv.1 == k) then
    m.map (fun kv => if kv.1 == k then (k, v) else kv)
  else m ++ [(k, v)]

/-- The usage closure of the orchestration: occurrences of the sample whose
hex value matches, 0 when none is found (`?.occurrences.length || 0`). -/
def occurrenceCount (colors : List ColorData) (hexColor : String) : ℕ :=
  match colors.find? (fun c => c.hexValue == hexColor) with
  | some colorData => colorData.occurrences.length
  | none => 0

/-- Stable insertion of an element into a list sorted by a numeric key:
the element goes before the first strictly greater key.  Together with
`stableSortByKey` this models `Array.prototype.sort` with the numeric
comparator `(a, b) => key a - key b` (stable, ascending). -/
def insertByKey (key : α → ℕ) (x : α) : List α → List α
  | [] => [x]
  | y :: ys => if key y ≤ key x then y :: insertByKey key x ys else x :: y :: ys

/-- Stable ascending sort by a numeric key (see `insertByKey`). -/
def stableSortByKey (key : α → ℕ) : List α → List α
  | [] => []
  | x :: xs => insertByKey key x (stableSortByKey key xs)

/-- The per-group `HueAnalysis` record of the orchestration. -/
structure HueAnalysis where
  hue : OpenColorHue
  colors : List String
  avgHue : ℝ
  avgChroma : ℚ
  avgLightness : ℚ
  usage : ℕ
  highlightHue : Option ℝ
  midtoneHue : Option ℝ
  shadowHue : Option ℝ
  highlightColors : Option (List String)
  midtoneColors : Option (List String)
  shadowColors : Option (List String)

/-- A generated scheme (`GeneratedColorScheme`). -/
structure GeneratedColorScheme where
  hue : OpenColorHue
  name : String
  shades : List String
  analysis : HueAnalysis
  tripleHueMode : Option Bool

/-- The orchestration result (`ColorSchemeAnalysis`). -/
structure ColorSchemeAnalysis where
  totalColors : ℕ
  hueAnalyses : List HueAnalysis
  generatedSchemes : List GeneratedColorScheme
  openColorMapping : List (String × OpenColorReference)
  tripleHueConfig : Option TripleHueConfig

/-- One `HueAnalysis` of the orchestration's `.map` step, for the pair of
a family and its (non-empty) member list. -/
noncomputable def mkHueAnalysis (occCount : String → ℕ)
    (tripleHueConfig : Option TripleHueConfig) (p : OpenColorHue × List String) :
    HueAnalysis :=
  let analysis := calculateAverageHSL p.2 p.1 tripleHueConfig
  let usage := p.2.foldl (fun sum hexColor => sum + occCount hexColor) 0
  ⟨p.1, p.2, analysis.avgHue, analysis.avgChroma, analysis.avgLightness,
   usage, analysis.highlightHue, analysis.midtoneHue, analysis.shadowHue,
   analysis.highlightColors, analysis.midtoneColors, analysis.shadowColors⟩

/-- The orchestration's `hueAnalyses` before sorting: every non-empty hue
group (in `Object.entries` order) analyzed with its usage. -/
noncomputable def unsortedHueAnalyses (hexColors : List String)
    (occCount : String → ℕ) (tripleHueConfig : Option TripleHueConfig) :
    List HueAnalysis :=
  ((hueOrder.map (fun hue => (hue, groupColorsByOpenColorHue hexColors hue))).filter
      (fun p => ¬ p.2 = [])).map (mkHueAnalysis occCount tripleHueConfig)

/-- The orchestration's `openColorMapping`: nearest static reference entry
for every input color, keyed by hex value (ts-belt `A.reduce` of `D.set`). -/
noncomputable def buildOpenColorMapping (hexColors : List String) :
    List (String × OpenColorReference) :=
  hexColors.foldl (fun acc hx => recordSet acc hx (findClosestOpenColor hx)) []

/-- The orchestration's `generatedSchemes`: one scheme per analysis with
usage above zero, using `max` of the group chroma and the overall mean
chroma, the configured mode flag, and the analysis's zone hues. -/
noncomputable def buildGeneratedSchemes (hueAnalyses : List HueAnalysis)
    (tripleHueConfig : Option TripleHueConfig) : List GeneratedColorScheme :=
  let globalChroma : ℚ :=
    (hueAnalyses.foldl (fun sum analysis => sum + analysis.avgChroma) 0) /
      hueAnalyses.length
  (hueAnalyses.filter (fun analysis => 0 < analysis.usage)).map
    (fun analysis =>
      let shades := generateOpenColorShades analysis.avgHue
        (max analysis.avgChroma globalChroma) analysis.hue
        (match tripleHueConfig with | some cfg => cfg.enabled | none => false)
        analysis.highlightHue analysis.midtoneHue analysis.shadowHue
      ⟨analysis.hue, (OPEN_COLOR_HUES analysis.hue).name, shades, analysis,
       tripleHueConfig.map (fun cfg => cfg.enabled)⟩)

/-- Core of `analyzeColorsForSchemeGeneration`, written over the data the
source actually reads from the input: the number of samples, their hex
values in order, and the per-hex occurrence count (the source's
`colors.find(...)?.occurrences.length || 0` closure).  Groups the hex
values, builds the reference mapping, analyzes each non-empty group with
its usage, sorts by spectral order, and synthesizes one scheme per group
with usage above zero. -/
noncomputable def analyzeCore (totalColors : ℕ) (hexColors : List String)
    (occCount : String → ℕ) (tripleHueConfig : Option TripleHueConfig) :
    ColorSchemeAnalysis :=
  let hueAnalyses : List HueAnalysis :=
    stableSortByKey (fun a => getSpectralIndex a.hue)
      (unsortedHueAnalyses hexColors occCount tripleHueConfig)
  ⟨totalColors, hueAnalyses, buildGeneratedSchemes hueAnalyses tripleHueConfig,
   buildOpenColorMapping hexColors, tripleHueConfig⟩

/-- `analyzeColorsForSchemeGeneration`: take the samples (record values),
and run the core pipeline on their hex values and occurrence counts. -/
noncomputable def analyzeColorsForSchemeGeneration (colorData : ColorDataMap)
    (tripleHueConfig : Option TripleHueConfig) : ColorSchemeAnalysis :=
  let colors := colorData.map (fun kv => kv.2)
  analyzeCore colors.length (colors.map (fun c => c.hexValue))
    (occurrenceCount colors) tripleHueConfig

/-- `generateCompleteOpenColorPalette`: start from a copy of the static
palette, then overwrite each family that has a generated scheme with
usage at least 1 by that scheme's shades. -/
noncomputable def generateCompleteOpenColorPalette (colorData : ColorDataMap)
    (tripleHueConfig : Option TripleHueConfig) : OpenColorHue → List String :=
  let analysis := analyzeColorsForSchemeGeneration colorData tripleHueConfig
  analysis.generatedSchemes.foldl
    (fun palette scheme =>
      if 1 ≤ scheme.analysis.usage then
        Function.update palette scheme.hue scheme.shades
      else palette)
    (fun hue => OPEN_COLOR_PALETTE hue)

/-- A scheme-matcher result (`ColorMatch`); the distance lives in `EReal`
so that the initial `Infinity` is `⊤`. -/
structure ColorMatch where
  color : String
  hue : OpenColorHue
  shade : ℕ
  schemeName : String
  distance : EReal
  colorName : String

/-- `findClosestSchemeColor`: scan every shade of every generated scheme
keeping the strictly closest match; with no schemes the initial default
(black, gray family, darkest shade) is returned. -/
noncomputable def findClosestSchemeColor (inputColor : String)
    (analysis : ColorSchemeAnalysis) : ColorMatch :=
  analysis.generatedSchemes.foldl
    (fun closestMatch scheme =>
      scheme.shades.enum.foldl
        (fun closestMatch p =>
          let distance : EReal := (calculateColorDistance inputColor p.2 : ℝ)
          if distance < closestMatch.distance then
            ⟨p.2, scheme.hue, p.1, scheme.name, distance,
             hueKey scheme.hue ++ "-" ++ toString p.1⟩
          else closestMatch)
        closestMatch)
    ⟨"#000000", OpenColorHue.gray, 9, "Gray", ⊤, "gray-9"⟩

/-- The spec's reading of the triple-hue gate: mode enabled, all three
zone hues defined, and at least one pair AMONG THE THREE hues (including
highlight–shadow) more than 5 degrees apart. -/
def specTripleHueApplies (tripleHueMode : Bool) (hH mH sH : Option ℝ) : Prop :=
  tripleHueMode = true ∧ ∃ a b c, hH = some a ∧ mH = some b ∧ sH = some c ∧
    (5 < |a - b| ∨ 5 < |b - c| ∨ 5 < |a - c|)

/-- A triple-hue configuration with mode on and default thresholds. -/
def tripleOnConfig : TripleHueConfig :=
  ⟨true, none, none⟩

/-- One usage site, for concrete sample inputs. -/
def sampleOccurrence : ColorOccurrence :=
  ⟨"header.css", 10, "background-color: #888888", "background"⟩

/-- A single mid-gray sample (saturation 0, classified into the neutral
family) with one occurrence. -/
def graySample : ColorData :=
  ⟨"#888888", 0, "brand", "global-design-system", [sampleOccurrence]⟩

/-- An input collection holding only the gray sample. -/
def grayOnlyInput : ColorDataMap :=
  [("gray-key", graySample)]

/-- An analysis value with no generated schemes. -/
def emptyAnalysis : ColorSchemeAnalysis :=
  ⟨0, [], [], [], none⟩

/-- A query color for the matcher witness. -/
def sampleQuery : String :=
  "#123456"

/-- A red sample carrying one set of hue/category metadata. -/
def redSampleA : ColorData :=
  ⟨"#ff0000", 0, "brand", "global-design-system", [sampleOccurrence]⟩

/-- The same hex value and occurrences with entirely different hue and
category metadata. -/
def redSampleB : ColorData :=
  ⟨"#ff0000", 123, "legacy", "one-off-usage", [sampleOccurrence]⟩

lemma jsTrunc_of_nonneg (x : ℝ) (hx : 0 ≤ x) : jsTrunc x = (⌊x⌋ : ℝ) := by
  unfold jsTrunc
  exact if_neg (not_lt.mpr hx)

lemma jsMod_360_of_nonneg (a : ℝ) (ha : 0 ≤ a) :
    jsMod a 360 = 360 * Int.fract (a / 360) := by
  unfold jsMod
  rw [jsTrunc_of_nonneg (a / 360) (by positivity)]
  rw [Int.fract]
  ring

lemma jsMod_360_nonneg_bounds (a : ℝ) (ha : 0 ≤ a) :
    0 ≤ jsMod a 360 ∧ jsMod a 360 < 360 := by
  rw [jsMod_360_of_nonneg a ha]
  constructor
  · have := Int.fract_nonneg (a / 360)
    linarith
  · have := Int.fract_lt_one (a / 360)
    linarith

lemma jsMod_360_self (a : ℝ) (h0 : 0 ≤ a) (h1 : a < 360) : jsMod a 360 = a := by
  rw [jsMod_360_of_nonneg a h0, Int.fract_eq_self.mpr ⟨by positivity, by linarith⟩]
  field_simp

lemma jsMod_360_shift (a : ℝ) (h0 : 0 ≤ a) (h1 : a < 360) :
    jsMod (a + 360) 360 = a := by
  rw [jsMod_360_of_nonneg (a + 360) (by linarith)]
  have he : (a + 360) / 360 = a / 360 + (1 : ℤ) := by
    push_cast
    field_simp
  rw [he, Int.fract_add_int, Int.fract_eq_self.mpr ⟨by positivity, by linarith⟩]
  field_simp

lemma normalizeHue360_of_mem (a : ℝ) (h0 : 0 ≤ a) (h1 : a < 360) :
    normalizeHue360 a = a := by
  unfold normalizeHue360
  rw [jsMod_360_self a h0 h1, jsMod_360_shift a h0 h1]

lemma jsMod_360_bounds (a : ℝ) : -360 < jsMod a 360 ∧ jsMod a 360 < 360 := by
  by_cases ha : 0 ≤ a
  · have := jsMod_360_nonneg_bounds a ha
    exact ⟨by linarith [this.1], this.2⟩
  · push_neg at ha
    unfold jsMod jsTrunc
    have hq : a / 360 < 0 := by
      apply div_neg_of_neg_of_pos ha
      norm_num
    rw [if_pos hq]
    have hc1 : (⌈a / 360⌉ : ℝ) < a / 360 + 1 := Int.ceil_lt_add_one (a / 360)
    have hc2 : a / 360 ≤ (⌈a / 360⌉ : ℝ) := Int.le_ceil (a / 360)
    constructor
    · nlinarith
    · nlinarith

lemma normalizeHue360_mem (a : ℝ) :
    0 ≤ normalizeHue360 a ∧ normalizeHue360 a < 360 := by
  unfold normalizeHue360
  have hb := jsMod_360_bounds a
  exact jsMod_360_nonneg_bounds (jsMod a 360 + 360) (by linarith [hb.1])

lemma normalizeHue360_360 : normalizeHue360 (360 : ℝ) = 0 := by
  unfold normalizeHue360
  have h1 : jsMod (360 : ℝ) 360 = 0 := by
    rw [jsMod_360_of_nonneg 360 (by norm_num)]
    norm_num
  rw [h1]
  exact jsMod_360_shift 0 le_rfl (by norm_num)

/-- Claim C6: the hue interpolation primitive takes the shortest arc
through the 0°/360° seam — `interpolateHue 350 10 0.5 = 0` — and is the
identity on equal endpoints: `interpolateHue h h f = h` for every hue
`h ∈ [0, 360)` and every factor `f`. -/
theorem claim_C6 :
    interpolateHue 350 10 (1/2) = 0
  ∧ ∀ h : ℝ, 0 ≤ h → h < 360 → ∀ f : ℝ, interpolateHue h h f = h := by
  constructor
  · simp only [interpolateHue]
    rw [normalizeHue360_of_mem 350 (by norm_num) (by norm_num),
        normalizeHue360_of_mem 10 (by norm_num) (by norm_num)]
    rw [if_neg (by norm_num), if_pos (by norm_num)]
    have he : (350 : ℝ) + (10 - 350 + 360) * (1/2) = 360 := by norm_num
    rw [he, normalizeHue360_360]
  · intro h h0 h1 f
    simp only [interpolateHue]
    rw [normalizeHue360_of_mem h h0 h1]
    rw [if_neg (by norm_num), if_neg (by norm_num)]
    have he : h + (h - h) * f = h := by ring
    rw [he, normalizeHue360_of_mem h h0 h1]

/-- Witness for claim C6 at the concrete hue 7 and factor 1/3. -/
theorem claim_C6_witness :
    ((0 : ℝ) ≤ 7 ∧ (7 : ℝ) < 360) ∧ interpolateHue 7 7 (1/3) = 7 :=
  ⟨⟨by norm_num, by norm_num⟩, claim_C6.2 7 (by norm_num) (by norm_num) (1/3)⟩

lemma atan2_bounds (y x : ℝ) : -Real.pi < atan2 y x ∧ atan2 y x ≤ Real.pi :=
  ⟨Complex.neg_pi_lt_arg _, Complex.arg_le_pi _⟩

lemma circ_branch_mem (a : ℝ) (h1 : -Real.pi < a) (h2 : a ≤ Real.pi) :
    0 ≤ (if a * 180 / Real.pi < 0 then a * 180 / Real.pi + 360 else a * 180 / Real.pi)
  ∧ (if a * 180 / Real.pi < 0 then a * 180 / Real.pi + 360 else a * 180 / Real.pi) < 360 := by
  have hπ := Real.pi_pos
  have hu : a * 180 / Real.pi ≤ 180 := by
    rw [div_le_iff₀ hπ]
    nlinarith
  have hl : -180 < a * 180 / Real.pi := by
    rw [lt_div_iff₀ hπ]
    nlinarith
  by_cases hc : a * 180 / Real.pi < 0
  · rw [if_pos hc]
    constructor <;> linarith
  · rw [if_neg hc]
    push_neg at hc
    constructor <;> linarith

/-- Claim C5: the circular mean of [350, 10] is exactly 0 (not 180); the
circular mean of [0, 90, 180, 270], whose vector average is the zero
vector, is the deterministic fallback 0; the circular mean of the empty
list is 0; and every returned value lies in [0, 360). -/
theorem claim_C5 :
    calculateCircularMean [350, 10] = 0
  ∧ calculateCircularMean [0, 90, 180, 270] = 0
  ∧ calculateCircularMean [] = 0
  ∧ ∀ hues : List ℝ,
      0 ≤ calculateCircularMean hues ∧ calculateCircularMean hues < 360 := by
  have hπ := Real.pi_pos
  refine ⟨?_, ?_, ?_, ?_⟩
  · have he : (350 : ℝ) * Real.pi / 180 - 2 * Real.pi = -((10 : ℝ) * Real.pi / 180) := by
      ring
    have hc : Real.cos ((350 : ℝ) * Real.pi / 180) = Real.cos ((10 : ℝ) * Real.pi / 180) := by
      rw [← Real.cos_sub_two_pi ((350 : ℝ) * Real.pi / 180), he, Real.cos_neg]
    have hs : Real.sin ((350 : ℝ) * Real.pi / 180) = -Real.sin ((10 : ℝ) * Real.pi / 180) := by
      rw [← Real.sin_sub_two_pi ((350 : ℝ) * Real.pi / 180), he, Real.sin_neg]
    simp only [calculateCircularMean]
    rw [if_neg (by simp)]
    simp only [List.map_cons, List.map_nil, List.sum_cons, List.sum_nil,
      List.length_cons, List.length_nil]
    rw [hc, hs]
    have hy : (-Real.sin ((10 : ℝ) * Real.pi / 180) + (Real.sin ((10 : ℝ) * Real.pi / 180) + 0))
        / ((0 + 1 + 1 : ℕ) : ℝ) = 0 := by
      push_cast
      ring
    have hx : (Real.cos ((10 : ℝ) * Real.pi / 180) + (Real.cos ((10 : ℝ) * Real.pi / 180) + 0))
        / ((0 + 1 + 1 : ℕ) : ℝ) = Real.cos ((10 : ℝ) * Real.pi / 180) := by
      push_cast
      ring
    rw [hy, hx]
    have hcos0 : (0 : ℝ) ≤ Real.cos ((10 : ℝ) * Real.pi / 180) := by
      apply Real.cos_nonneg_of_mem_Icc
      constructor
      · nlinarith
      · nlinarith
    have ha : atan2 0 (Real.cos ((10 : ℝ) * Real.pi / 180)) = 0 := by
      unfold atan2
      have hz : (⟨Real.cos ((10 : ℝ) * Real.pi / 180), 0⟩ : ℂ)
          = ((Real.cos ((10 : ℝ) * Real.pi / 180) : ℝ) : ℂ) := rfl
      rw [hz]
      exact Complex.arg_ofReal_of_nonneg hcos0
    rw [ha]
    norm_num
  · have h90 : (90 : ℝ) * Real.pi / 180 = Real.pi / 2 := by ring
    have h180 : (180 : ℝ) * Real.pi / 180 = Real.pi := by ring
    have h270 : (270 : ℝ) * Real.pi / 180 = Real.pi + Real.pi / 2 := by ring
    have h0 : (0 : ℝ) * Real.pi / 180 = 0 := by ring
    have hc270 : Real.cos (Real.pi + Real.pi / 2) = 0 := by
      rw [Real.cos_add, Real.cos_pi, Real.sin_pi, Real.cos_pi_div_two]
      ring
    have hs270 : Real.sin (Real.pi + Real.pi / 2) = -1 := by
      rw [Real.sin_add, Real.cos_pi, Real.sin_pi, Real.sin_pi_div_two]
      ring
    simp only [calculateCircularMean]
    rw [if_neg (by simp)]
    simp only [List.map_cons, List.map_nil, List.sum_cons, List.sum_nil,
      List.length_cons, List.length_nil]
    rw [h90, h180, h270, h0, hc270, hs270, Real.cos_zero, Real.sin_zero,
      Real.cos_pi_div_two, Real.sin_pi_div_two, Real.cos_pi, Real.sin_pi]
    have hy : ((0 : ℝ) + (1 + (0 + (-1 + 0)))) / ((0 + 1 + 1 + 1 + 1 : ℕ) : ℝ) = 0 := by
      push_cast
      ring
    have hx : ((1 : ℝ) + (0 + (-1 + (0 + 0)))) / ((0 + 1 + 1 + 1 + 1 : ℕ) : ℝ) = 0 := by
      push_cast
      ring
    rw [hy, hx]
    have ha : atan2 0 0 = 0 := by
      unfold atan2
      have hz : (⟨(0 : ℝ), (0 : ℝ)⟩ : ℂ) = 0 := rfl
      rw [hz]
      exact Complex.arg_zero
    rw [ha]
    norm_num
  · simp [calculateCircularMean]
  · intro hues
    by_cases hn : hues = []
    · subst hn
      simp [calculateCircularMean]
    · simp only [calculateCircularMean, if_neg hn]
      exact circ_branch_mem _ (atan2_bounds _ _).1 (atan2_bounds _ _).2

lemma groupColors_aux (colors : List String) (g : OpenColorHue → List String)
    (h : OpenColorHue) :
    (colors.foldl
      (fun grouped color =>
        Function.update grouped (findClosestOpenColorHue color)
          (grouped (findClosestOpenColorHue color) ++ [color])) g) h
    = g h ++ colors.filter (fun c => findClosestOpenColorHue c = h) := by
  induction colors generalizing g with
  | nil => simp
  | cons c cs ih =>
    rw [List.foldl_cons, ih, List.filter_cons]
    by_cases hc : findClosestOpenColorHue c = h
    · rw [Function.update_apply]
      simp [hc]
    · rw [Function.update_apply]
      simp [hc]
      intro he
      exact absurd he.symm hc

lemma groupColorsByOpenColorHue_eq_filter (colors : List String) (h : OpenColorHue) :
    groupColorsByOpenColorHue colors h
      = colors.filter (fun c => findClosestOpenColorHue c = h) := by
  unfold groupColorsByOpenColorHue
  rw [groupColors_aux]
  simp

lemma count_filter_eq (colors : List String) (c : String) (h : OpenColorHue) :
    (colors.filter (fun x => findClosestOpenColorHue x = h)).count c
      = if findClosestOpenColorHue c = h then colors.count c else 0 := by
  by_cases hc : findClosestOpenColorHue c = h
  · rw [if_pos hc]
    exact List.count_filter (by simpa using hc)
  · rw [if_neg hc]
    rw [List.count_eq_zero]
    intro hmem
    exact hc (by simpa using (List.mem_filter.mp hmem).2)

lemma sum_counts_eq (l : List OpenColorHue) (x : OpenColorHue) (n : ℕ)
    (hnd : l.Nodup) (hmem : x ∈ l) :
    (l.map (fun h => if x = h then n else 0)).sum = n := by
  induction l with
  | nil => cases hmem
  | cons y ys ih =>
    rw [List.map_cons, List.sum_cons]
    rcases List.mem_cons.mp hmem with rfl | hmem2
    · rw [if_pos rfl]
      have hnotin : x ∉ ys := (List.nodup_cons.mp hnd).1
      have hz : (ys.map (fun h => if x = h then n else 0)).sum = 0 := by
        apply List.sum_eq_zero
        intro z hz
        obtain ⟨w, hw, rfl⟩ := List.mem_map.mp hz
        rw [if_neg]
        intro e
        exact hnotin (e ▸ hw)
      rw [hz]
      simp
    · have hne : x ≠ y := by
        intro e
        exact (List.nodup_cons.mp hnd).1 (e ▸ hmem2)
      rw [if_neg hne, ih (List.nodup_cons.mp hnd).2 hmem2]
      simp

/-- Claim C4: grouping into the 13 hue families is a total partition —
each family's member list is exactly the input filtered to the colors
classified into it (so order-preserving, no omissions, no duplicates
beyond those of the input), every color occurrence is counted exactly
once across all 13 families, every family is present in the grouping
output (empty when memberless), and the family list has 13 distinct
entries. -/
theorem claim_C4 (colors : List String) :
    (∀ h, groupColorsByOpenColorHue colors h
        = colors.filter (fun c => findClosestOpenColorHue c = h))
  ∧ (∀ c : String,
      (hueOrder.map (fun h => (groupColorsByOpenColorHue colors h).count c)).sum
        = colors.count c)
  ∧ (∀ h : OpenColorHue, h ∈ hueOrder) ∧ hueOrder.Nodup ∧ hueOrder.length = 13 := by
  refine ⟨groupColorsByOpenColorHue_eq_filter colors, ?_, ?_, by decide, by decide⟩
  · intro c
    have hrw : hueOrder.map (fun h => (groupColorsByOpenColorHue colors h).count c)
        = hueOrder.map (fun h => if findClosestOpenColorHue c = h then colors.count c else 0) := by
      apply List.map_congr_left
      intro h hh
      rw [groupColorsByOpenColorHue_eq_filter, count_filter_eq]
    rw [hrw]
    exact sum_counts_eq hueOrder (findClosestOpenColorHue c) (colors.count c)
      (by decide) (by cases hc : findClosestOpenColorHue c <;> simp [hueOrder])
  · intro h
    cases h <;> simp [hueOrder]

lemma analyze_nil (cfg : Option TripleHueConfig) :
    analyzeColorsForSchemeGeneration [] cfg = ⟨0, [], [], [], cfg⟩ := rfl

/-- Claim C3: on the empty input collection, under any multi-zone
configuration, the orchestration returns the well-defined empty result —
`totalColors = 0`, no per-family analyses, no generated schemes, an empty
reference mapping, and the configuration passed through.  Every output
field is a definite empty/zero value, so no undefined division result
reaches the output and the call is total. -/
theorem claim_C3 (cfg : Option TripleHueConfig) :
    analyzeColorsForSchemeGeneration [] cfg
      = ⟨0, [], [], [], cfg⟩ :=
  analyze_nil cfg

/-- Claim C8: when the analysis carries no generated schemes, the global
matcher returns the default match — black `#000000`, the neutral gray
family, and the darkest shade index 9 — rather than failing. -/
theorem claim_C8 (inputColor : String) (analysis : ColorSchemeAnalysis)
    (h : analysis.generatedSchemes = []) :
    findClosestSchemeColor inputColor analysis
      = ⟨"#000000", OpenColorHue.gray, 9, "Gray", ⊤, "gray-9"⟩ := by
  unfold findClosestSchemeColor
  rw [h, List.foldl_nil]

/-- Witness for claim C8 on a concrete schemeless analysis value. -/
theorem claim_C8_witness :
    emptyAnalysis.generatedSchemes = []
  ∧ findClosestSchemeColor sampleQuery emptyAnalysis
      = ⟨"#000000", OpenColorHue.gray, 9, "Gray", ⊤, "gray-9"⟩ :=
  ⟨rfl, claim_C8 sampleQuery emptyAnalysis rfl⟩

lemma useTripleHue_iff (tripleHueMode : Bool) (hH mH sH : Option ℝ) :
    useTripleHue tripleHueMode hH mH sH = true ↔
      (tripleHueMode = true ∧ ∃ a b c, hH = some a ∧ mH = some b ∧ sH = some c ∧
        (5 < |a - b| ∨ 5 < |b - c|)) := by
  unfold useTripleHue
  cases hH with
  | none => simp
  | some a =>
    cases mH with
    | none => simp
    | some b =>
      cases sH with
      | none => simp
      | some c =>
        simp [Bool.and_eq_true, Bool.or_eq_true, decide_eq_true_eq]

/-- Claim C1 (amended): for a chromatic family, the synthesizer's
three-zone interpolation gate passes exactly when the mode flag is set,
all three zone hues are defined, and one of the two ADJACENT pairs
(highlight–midtone or midtone–shadow) differs by more than 5 in absolute
value — the highlight–shadow pair is NOT consulted; whenever the gate
fails, every one of the 10 shades is built from the single average hue
normalized to [0,360). -/
theorem claim_C1 (baseHue : ℝ) (baseChroma : ℚ) (hueCategory : OpenColorHue)
    (tripleHueMode : Bool) (hH mH sH : Option ℝ)
    (hg : hueCategory ≠ OpenColorHue.gray) :
    (useTripleHue tripleHueMode hH mH sH = true ↔
      (tripleHueMode = true ∧ ∃ a b c, hH = some a ∧ mH = some b ∧ sH = some c ∧
        (5 < |a - b| ∨ 5 < |b - c|)))
  ∧ (useTripleHue tripleHueMode hH mH sH = false →
      generateOpenColorShades baseHue baseChroma hueCategory tripleHueMode hH mH sH
        = lightnessSteps.map (fun lightness =>
            hslToHex (normalizeHue360 baseHue)
              (min 100 (max 0 (getChromaForLightness baseChroma lightness)))
              (min 100 (max 0 lightness))))
  ∧ 0 ≤ normalizeHue360 baseHue ∧ normalizeHue360 baseHue < 360 := by
  refine ⟨useTripleHue_iff tripleHueMode hH mH sH, ?_,
    (normalizeHue360_mem baseHue).1, (normalizeHue360_mem baseHue).2⟩
  intro hu
  unfold generateOpenColorShades
  rw [if_neg hg]
  simp only [hu, Bool.false_eq_true, if_false]

/-- Witness for claim C1 at a concrete chromatic family and arguments. -/
theorem claim_C1_witness :
    OpenColorHue.red ≠ OpenColorHue.gray
  ∧ (0 ≤ normalizeHue360 30 ∧ normalizeHue360 30 < 360) :=
  ⟨by decide, (claim_C1 30 50 OpenColorHue.red false none none none (by decide)).2.2⟩

/-- Counterexample to claim C1 as stated: with zone hues 0, 3, 6 the
highlight–shadow pair differs by 6 > 5, so the spec's gate (any pair
among the three) applies — but the code's gate only checks the two
adjacent pairs (3 ≤ 5 each) and falls back to single-hue shades. -/
theorem claim_C1_counterexample :
    specTripleHueApplies true (some 0) (some 3) (some 6)
  ∧ useTripleHue true (some 0) (some 3) (some 6) = false
  ∧ generateOpenColorShades 100 50 OpenColorHue.red true (some 0) (some 3) (some 6)
      = generateOpenColorShades 100 50 OpenColorHue.red false none none none := by
  have hu : useTripleHue true (some 0) (some 3) (some 6) = false := by
    unfold useTripleHue
    simp only [Option.getD_some, Option.isSome_some, Bool.and_true, Bool.true_and]
    rw [decide_eq_false (by rw [show ((0:ℝ) - 3) = -3 by norm_num]; rw [abs_neg]; norm_num),
        decide_eq_false (by rw [show ((3:ℝ) - 6) = -3 by norm_num]; rw [abs_neg]; norm_num)]
    simp
  have hu2 : useTripleHue false none none none = false := by
    unfold useTripleHue
    simp
  refine ⟨⟨rfl, 0, 3, 6, rfl, rfl, rfl, ?_⟩, hu, ?_⟩
  · right
    right
    rw [show ((0:ℝ) - 6) = -6 by norm_num, abs_neg]
    rw [show |(6:ℝ)| = 6 from abs_of_nonneg (by norm_num)]
    norm_num
  · unfold generateOpenColorShades
    rw [if_neg (by decide), if_neg (by decide)]
    simp only [hu, hu2, Bool.false_eq_true, if_false]

lemma hexToRgb_gray8 : hexToRgb "#888888" = ⟨136, 136, 136⟩ := by decide

lemma toHsl_gray8 : toHsl "#888888" = ⟨0, 0, 53⟩ := by
  unfold toHsl
  rw [hexToRgb_gray8]
  simp only [rgbToHsl, qround]
  norm_num

lemma classify_gray8 : findClosestOpenColorHue "#888888" = OpenColorHue.gray := by
  unfold findClosestOpenColorHue
  rw [toHsl_gray8]
  norm_num

lemma grouped_gray8 : groupColorsByOpenColorHue ["#888888"]
    = Function.update (fun _ => []) OpenColorHue.gray ["#888888"] := by
  unfold groupColorsByOpenColorHue
  rw [List.foldl_cons, List.foldl_nil, classify_gray8]
  rfl

lemma unsorted_gray8 (occCount : String → ℕ) (cfg : Option TripleHueConfig) :
    unsortedHueAnalyses ["#888888"] occCount cfg
      = [mkHueAnalysis occCount cfg (OpenColorHue.gray, ["#888888"])] := by
  unfold unsortedHueAnalyses
  rw [grouped_gray8]
  have hp : ((hueOrder.map (fun hue => (hue, Function.update (fun _ => ([] : List String))
      OpenColorHue.gray ["#888888"] hue))).filter (fun p => ¬ p.2 = []))
      = [(OpenColorHue.gray, ["#888888"])] := by decide
  rw [hp]
  rfl

/-- Claim C2 (amended): for every input and configuration, every
generated scheme's `tripleHueMode` flag equals the configured `enabled`
setting — it records whether multi-zone mode was REQUESTED, not whether
three-zone interpolation was actually applied to that scheme's shades. -/
theorem claim_C2 (colorData : ColorDataMap) (cfg : Option TripleHueConfig) :
    (analyzeColorsForSchemeGeneration colorData cfg).generatedSchemes.all
      (fun s => s.tripleHueMode = cfg.map (fun c => c.enabled)) = true := by
  rw [List.all_eq_true]
  intro s hs
  have hrw : (analyzeColorsForSchemeGeneration colorData cfg).generatedSchemes
      = buildGeneratedSchemes
          ((analyzeColorsForSchemeGeneration colorData cfg).hueAnalyses) cfg := rfl
  rw [hrw] at hs
  simp only [buildGeneratedSchemes] at hs
  obtain ⟨a, ha, rfl⟩ := List.mem_map.mp hs
  simp

/-- Counterexample to claim C2 as stated: for the single-gray-sample
input with multi-zone mode enabled, the (only) generated scheme carries
`tripleHueMode = some true`, yet the synthesizer never took the
three-zone interpolation path for it (gray returns fixed shades before
the gate, and the zone hues are all undefined), so the flag does not
mean "multi-zone interpolation was actually used". -/
theorem claim_C2_counterexample :
    (analyzeColorsForSchemeGeneration grayOnlyInput (some tripleOnConfig)).generatedSchemes.map
      (fun s => (s.hue, s.tripleHueMode,
        tripleHueApplied s.hue (s.tripleHueMode.getD false)
          s.analysis.highlightHue s.analysis.midtoneHue s.analysis.shadowHue))
      = [(OpenColorHue.gray, some true, false)] := by
  have hshow : analyzeColorsForSchemeGeneration grayOnlyInput (some tripleOnConfig)
      = analyzeCore 1 ["#888888"]
          (occurrenceCount (grayOnlyInput.map (fun kv => kv.2))) (some tripleOnConfig) := rfl
  rw [hshow]
  simp only [analyzeCore]
  rw [unsorted_gray8]
  simp only [stableSortByKey, insertByKey, buildGeneratedSchemes]
  have husage : (mkHueAnalysis (occurrenceCount (grayOnlyInput.map (fun kv => kv.2)))
      (some tripleOnConfig) (OpenColorHue.gray, ["#888888"])).usage = 1 := by decide
  rw [List.filter_cons, List.filter_nil]
  rw [husage]
  norm_num
  exact ⟨rfl, rfl, rfl⟩

lemma insertByKey_perm {α : Type} (key : α → ℕ) (x : α) (l : List α) :
    List.Perm (insertByKey key x l) (x :: l) := by
  induction l with
  | nil => exact List.Perm.refl _
  | cons y ys ih =>
    unfold insertByKey
    by_cases h : key y ≤ key x
    · rw [if_pos h]
      exact (ih.cons y).trans (List.Perm.swap x y ys)
    · rw [if_neg h]

lemma stableSortByKey_perm {α : Type} (key : α → ℕ) (l : List α) :
    List.Perm (stableSortByKey key l) l := by
  induction l with
  | nil => exact List.Perm.refl _
  | cons x xs ih =>
    unfold stableSortByKey
    exact (insertByKey_perm key x _).trans (ih.cons x)

lemma unsortedHueAnalyses_map_hue (hexColors : List String) (occCount : String → ℕ)
    (cfg : Option TripleHueConfig) :
    (unsortedHueAnalyses hexColors occCount cfg).map (fun a => a.hue)
      = hueOrder.filter
          (fun h => ¬ groupColorsByOpenColorHue hexColors h = []) := by
  unfold unsortedHueAnalyses
  rw [List.map_map, List.filter_map, List.map_map]
  have hcomp : (((fun a => a.hue) ∘ mkHueAnalysis occCount cfg)
      ∘ fun hue => (hue, groupColorsByOpenColorHue hexColors hue)) = id := rfl
  rw [hcomp, List.map_id]
  rfl

lemma hueAnalyses_hue_perm (d : ColorDataMap) (cfg : Option TripleHueConfig) :
    List.Perm ((analyzeColorsForSchemeGeneration d cfg).hueAnalyses.map (fun a => a.hue))
      (hueOrder.filter (fun h =>
        ¬ groupColorsByOpenColorHue
            ((d.map (fun kv => kv.2)).map (fun c => c.hexValue)) h = [])) := by
  have hrw : (analyzeColorsForSchemeGeneration d cfg).hueAnalyses
      = stableSortByKey (fun a => getSpectralIndex a.hue)
          (unsortedHueAnalyses ((d.map (fun kv => kv.2)).map (fun c => c.hexValue))
            (occurrenceCount (d.map (fun kv => kv.2))) cfg) := rfl
  rw [hrw, ← unsortedHueAnalyses_map_hue]
  exact (stableSortByKey_perm _ _).map _

lemma hueAnalyses_hue_nodup (d : ColorDataMap) (cfg : Option TripleHueConfig) :
    ((analyzeColorsForSchemeGeneration d cfg).hueAnalyses.map (fun a => a.hue)).Nodup := by
  apply (hueAnalyses_hue_perm d cfg).nodup_iff.mpr
  exact List.Nodup.filter _ (by decide)

lemma generateOpenColorShades_length (baseHue : ℝ) (baseChroma : ℚ)
    (hueCategory : OpenColorHue) (mode : Bool) (hH mH sH : Option ℝ) :
    (generateOpenColorShades baseHue baseChroma hueCategory mode hH mH sH).length = 10 := by
  unfold generateOpenColorShades
  by_cases hg : hueCategory = OpenColorHue.gray
  · rw [if_pos hg]
    simp [lightnessSteps]
  · rw [if_neg hg]
    simp [lightnessSteps]

lemma schemes_from_analyses (d : ColorDataMap) (cfg : Option TripleHueConfig) :
    ∀ s ∈ (analyzeColorsForSchemeGeneration d cfg).generatedSchemes,
      s.analysis ∈ (analyzeColorsForSchemeGeneration d cfg).hueAnalyses
      ∧ s.hue = s.analysis.hue ∧ 0 < s.analysis.usage
      ∧ s.shades.length = 10 ∧ s.tripleHueMode = cfg.map (fun c => c.enabled) := by
  intro s hs
  have hrw : (analyzeColorsForSchemeGeneration d cfg).generatedSchemes
      = buildGeneratedSchemes
          ((analyzeColorsForSchemeGeneration d cfg).hueAnalyses) cfg := rfl
  rw [hrw] at hs
  simp only [buildGeneratedSchemes] at hs
  obtain ⟨a, ha, rfl⟩ := List.mem_map.mp hs
  refine ⟨List.mem_of_mem_filter ha, rfl, ?_, ?_, rfl⟩
  · simpa using List.of_mem_filter ha
  · exact generateOpenColorShades_length _ _ _ _ _ _ _

/-- Claim C7 (amended): the per-family analysis list contains exactly the
families whose hue group is non-empty (so a zero-usage group WITH members
is retained, while a memberless group — necessarily zero-usage — is
dropped); every generated scheme originates from an analysis with usage
strictly greater than zero; and an analysis with usage zero never has its
family in the generated-scheme list. -/
theorem claim_C7 (d : ColorDataMap) (cfg : Option TripleHueConfig) :
    List.Perm ((analyzeColorsForSchemeGeneration d cfg).hueAnalyses.map (fun a => a.hue))
      (hueOrder.filter (fun h =>
        ¬ groupColorsByOpenColorHue
            ((d.map (fun kv => kv.2)).map (fun c => c.hexValue)) h = []))
  ∧ (analyzeColorsForSchemeGeneration d cfg).generatedSchemes.all
      (fun s => decide (0 < s.analysis.usage)) = true
  ∧ (analyzeColorsForSchemeGeneration d cfg).hueAnalyses.all
      (fun a => decide (0 < a.usage) ||
        decide (a.hue ∉ (analyzeColorsForSchemeGeneration d cfg).generatedSchemes.map
          (fun s => s.hue))) = true := by
  refine ⟨hueAnalyses_hue_perm d cfg, ?_, ?_⟩
  · rw [List.all_eq_true]
    intro s hs
    simpa using (schemes_from_analyses d cfg s hs).2.2.1
  · rw [List.all_eq_true]
    intro a ha
    by_cases hu : 0 < a.usage
    · simp [hu]
    · simp only [Bool.or_eq_true, decide_eq_true_eq]
      right
      intro hmem
      obtain ⟨s, hsmem, hshue⟩ := List.mem_map.mp hmem
      obtain ⟨hmem2, hhue2, husage2, -, -⟩ := schemes_from_analyses d cfg s hsmem
      have hinj := List.inj_on_of_nodup_map (hueAnalyses_hue_nodup d cfg)
      have heq : s.analysis = a := hinj hmem2 ha (by rw [← hhue2, hshue])
      rw [heq] at husage2
      exact hu husage2

/-- Counterexample to claim C7 as stated: on the empty input collection,
the red hue group exists in the grouping output with no members — hence
total usage zero — yet it is NOT retained in the per-family analysis
list (the orchestration filters memberless groups out before analyzing). -/
theorem claim_C7_counterexample :
    groupColorsByOpenColorHue ([] : List String) OpenColorHue.red = []
  ∧ OpenColorHue.red ∉ (analyzeColorsForSchemeGeneration [] none).hueAnalyses.map
      (fun a => a.hue) := by
  constructor
  · rfl
  · rw [analyze_nil]
    simp

lemma occurrenceCount_congr (l1 l2 : List ColorData)
    (h : l1.map (fun c => (c.hexValue, c.occurrences))
      = l2.map (fun c => (c.hexValue, c.occurrences))) (x : String) :
    occurrenceCount l1 x = occurrenceCount l2 x := by
  induction l1 generalizing l2 with
  | nil =>
    cases l2 with
    | nil => rfl
    | cons b bs => simp at h
  | cons a as ih =>
    cases l2 with
    | nil => simp at h
    | cons b bs =>
      simp only [List.map_cons, List.cons.injEq, Prod.mk.injEq] at h
      obtain ⟨⟨hhex, hocc⟩, htail⟩ := h
      unfold occurrenceCount
      by_cases hp : (a.hexValue == x) = true
      · have hpb : (b.hexValue == x) = true := by
          rw [← hhex]
          exact hp
        have hfa : List.find? (fun c => c.hexValue == x) (a :: as) = some a :=
          List.find?_cons_of_pos _ hp
        have hfb : List.find? (fun c => c.hexValue == x) (b :: bs) = some b :=
          List.find?_cons_of_pos _ hpb
        rw [hfa, hfb]
        show a.occurrences.length = b.occurrences.length
        rw [hocc]
      · have hpb : ¬ (b.hexValue == x) = true := by
          rw [← hhex]
          exact hp
        have hfa : List.find? (fun c => c.hexValue == x) (a :: as)
            = List.find? (fun c => c.hexValue == x) as :=
          List.find?_cons_of_neg _ hp
        have hfb : List.find? (fun c => c.hexValue == x) (b :: bs)
            = List.find? (fun c => c.hexValue == x) bs :=
          List.find?_cons_of_neg _ hpb
        rw [hfa, hfb]
        exact ih bs htail

/-- Claim C9: the orchestration reads only each sample's hex value and
occurrence list — two input collections agreeing sample-by-sample on
those (while differing arbitrarily in the numeric hue field and the
category metadata, and even in record keys) produce identical results. -/
theorem claim_C9 (d1 d2 : ColorDataMap) (cfg : Option TripleHueConfig)
    (h : d1.map (fun kv => (kv.2.hexValue, kv.2.occurrences))
      = d2.map (fun kv => (kv.2.hexValue, kv.2.occurrences))) :
    analyzeColorsForSchemeGeneration d1 cfg = analyzeColorsForSchemeGeneration d2 cfg := by
  have hmap1 : d1.map (fun kv => (kv.2.hexValue, kv.2.occurrences))
      = (d1.map (fun kv => kv.2)).map (fun c => (c.hexValue, c.occurrences)) := by
    rw [List.map_map]
    rfl
  have hmap2 : d2.map (fun kv => (kv.2.hexValue, kv.2.occurrences))
      = (d2.map (fun kv => kv.2)).map (fun c => (c.hexValue, c.occurrences)) := by
    rw [List.map_map]
    rfl
  have hv : (d1.map (fun kv => kv.2)).map (fun c => (c.hexValue, c.occurrences))
      = (d2.map (fun kv => kv.2)).map (fun c => (c.hexValue, c.occurrences)) := by
    rw [← hmap1, ← hmap2]
    exact h
  have hlen : (d1.map (fun kv => kv.2)).length = (d2.map (fun kv => kv.2)).length := by
    have := congrArg List.length hv
    simpa using this
  have hhex : (d1.map (fun kv => kv.2)).map (fun c => c.hexValue)
      = (d2.map (fun kv => kv.2)).map (fun c => c.hexValue) := by
    have := congrArg (List.map Prod.fst) hv
    simpa [List.map_map] using this
  have hocc : occurrenceCount (d1.map (fun kv => kv.2))
      = occurrenceCount (d2.map (fun kv => kv.2)) := by
    funext x
    exact occurrenceCount_congr _ _ hv x
  simp only [analyzeColorsForSchemeGeneration]
  rw [hlen, hhex, hocc]

/-- Witness for claim C9: two single-sample collections with the same hex
value and occurrences but different keys, hue fields and categories. -/
theorem claim_C9_witness :
    ([("key-a", redSampleA)] : ColorDataMap).map (fun kv => (kv.2.hexValue, kv.2.occurrences))
      = ([("key-b", redSampleB)] : ColorDataMap).map (fun kv => (kv.2.hexValue, kv.2.occurrences))
  ∧ analyzeColorsForSchemeGeneration [("key-a", redSampleA)] none
      = analyzeColorsForSchemeGeneration [("key-b", redSampleB)] none :=
  ⟨rfl, claim_C9 [("key-a", redSampleA)] [("key-b", redSampleB)] none rfl⟩

lemma palette_foldl_not_mem (l : List GeneratedColorScheme)
    (init : OpenColorHue → List String) (h : OpenColorHue)
    (hh : h ∉ l.map (fun s => s.hue)) :
    (l.foldl (fun palette scheme =>
      if 1 ≤ scheme.analysis.usage then
        Function.update palette scheme.hue scheme.shades
      else palette) init) h = init h := by
  induction l generalizing init with
  | nil => rfl
  | cons s ss ih =>
    simp only [List.map_cons, List.mem_cons, not_or] at hh
    rw [List.foldl_cons, ih _ hh.2]
    by_cases hu : 1 ≤ s.analysis.usage
    · rw [if_pos hu, Function.update_apply, if_neg hh.1]
    · rw [if_neg hu]

lemma palette_foldl_mem (l : List GeneratedColorScheme)
    (init : OpenColorHue → List String) (s : GeneratedColorScheme)
    (hs : s ∈ l) (hnd : (l.map (fun t => t.hue)).Nodup)
    (hu : ∀ t ∈ l, 0 < t.analysis.usage) :
    (l.foldl (fun palette scheme =>
      if 1 ≤ scheme.analysis.usage then
        Function.update palette scheme.hue scheme.shades
      else palette) init) s.hue = s.shades := by
  induction l generalizing init with
  | nil => cases hs
  | cons t ts ih =>
    rw [List.foldl_cons]
    rcases List.mem_cons.mp hs with rfl | hmem
    · have hu1 : 1 ≤ s.analysis.usage := hu s (List.mem_cons_self s ts)
      rw [if_pos hu1]
      have hnotin : s.hue ∉ ts.map (fun t => t.hue) := by
        simp only [List.map_cons, List.nodup_cons] at hnd
        exact hnd.1
      rw [palette_foldl_not_mem ts _ s.hue hnotin, Function.update_apply, if_pos rfl]
    · have hnd2 : (ts.map (fun t => t.hue)).Nodup := by
        simp only [List.map_cons, List.nodup_cons] at hnd
        exact hnd.2
      exact ih _ hmem hnd2 (fun t ht => hu t (List.mem_cons_of_mem _ ht))

lemma schemes_hue_nodup (d : ColorDataMap) (cfg : Option TripleHueConfig) :
    (((analyzeColorsForSchemeGeneration d cfg).generatedSchemes).map
      (fun s => s.hue)).Nodup := by
  have hrw : (analyzeColorsForSchemeGeneration d cfg).generatedSchemes
      = buildGeneratedSchemes
          ((analyzeColorsForSchemeGeneration d cfg).hueAnalyses) cfg := rfl
  rw [hrw]
  simp only [buildGeneratedSchemes, List.map_map]
  show (((analyzeColorsForSchemeGeneration d cfg).hueAnalyses.filter
      (fun analysis => 0 < analysis.usage)).map (fun a => a.hue)).Nodup
  have hsub : (((analyzeColorsForSchemeGeneration d cfg).hueAnalyses.filter
      (fun analysis => 0 < analysis.usage)).map (fun a => a.hue)).Sublist
        (((analyzeColorsForSchemeGeneration d cfg).hueAnalyses).map (fun a => a.hue)) :=
    (List.filter_sublist _).map _
  exact hsub.nodup (hueAnalyses_hue_nodup d cfg)

/-- Claim C10: the complete-palette builder yields all 13 families with
exactly 10 shades each; a family with no generated scheme keeps exactly
its static Open Color shade list, and a family with a generated scheme
(whose usage is necessarily at least 1) gets exactly that scheme's
shades. -/
theorem claim_C10 (d : ColorDataMap) (cfg : Option TripleHueConfig) :
    (∀ h, (generateCompleteOpenColorPalette d cfg h).length = 10)
  ∧ (∀ h, h ∉ (analyzeColorsForSchemeGeneration d cfg).generatedSchemes.map
        (fun s => s.hue) →
      generateCompleteOpenColorPalette d cfg h = OPEN_COLOR_PALETTE h)
  ∧ (∀ s ∈ (analyzeColorsForSchemeGeneration d cfg).generatedSchemes,
      generateCompleteOpenColorPalette d cfg s.hue = s.shades
      ∧ 1 ≤ s.analysis.usage) := by
  have hnot : ∀ h, h ∉ (analyzeColorsForSchemeGeneration d cfg).generatedSchemes.map
      (fun s => s.hue) →
      generateCompleteOpenColorPalette d cfg h = OPEN_COLOR_PALETTE h := by
    intro h hh
    exact palette_foldl_not_mem _ _ h hh
  have hmem : ∀ s ∈ (analyzeColorsForSchemeGeneration d cfg).generatedSchemes,
      generateCompleteOpenColorPalette d cfg s.hue = s.shades := by
    intro s hs
    exact palette_foldl_mem _ _ s hs (schemes_hue_nodup d cfg)
      (fun t ht => (schemes_from_analyses d cfg t ht).2.2.1)
  refine ⟨?_, hnot, fun s hs => ⟨hmem s hs, (schemes_from_analyses d cfg s hs).2.2.1⟩⟩
  intro h
  by_cases hc : h ∈ (analyzeColorsForSchemeGeneration d cfg).generatedSchemes.map
      (fun s => s.hue)
  · obtain ⟨s, hs, rfl⟩ := List.mem_map.mp hc
    rw [hmem s hs]
    exact (schemes_from_analyses d cfg s hs).2.2.2.1
  · rw [hnot h hc]
    cases h <;> rfl

/-- Witness for claim C10: on the empty input no scheme exists, so the
red family keeps its static shade list. -/
theorem claim_C10_witness :
    OpenColorHue.red ∉ (analyzeColorsForSchemeGeneration [] none).generatedSchemes.map
      (fun s => s.hue)
  ∧ generateCompleteOpenColorPalette [] none OpenColorHue.red
      = OPEN_COLOR_PALETTE OpenColorHue.red := by
  have hmem : OpenColorHue.red ∉ (analyzeColorsForSchemeGeneration [] none).generatedSchemes.map
      (fun s => s.hue) := by
    rw [analyze_nil]
    simp
  exact ⟨hmem, (claim_C10 [] none).2.1 OpenColorHue.red hmem⟩
